import Mathlib

/-!
Verification of the SaoKit WebSocket connection manager (src/src/index.ts).

The development shallowly embeds the `SaoKit` class as a state machine:
pure functions translate each method body, timers become entries in an
explicit pending-timer list chosen for firing by the environment, transport
notifications become events, and the promise returned by `connect()` becomes
a write-once settlement cell (mirroring JS promise semantics, where a second
`resolve`/`reject` call is a no-op).
-/

/- Numeric readyState constants of the WebSocket API (`WebSocket.CONNECTING` etc.). -/
namespace WS

def CONNECTING : Nat := 0

def OPEN : Nat := 1

def CLOSING : Nat := 2

def CLOSED : Nat := 3

end WS

/-- The five event kinds of `SaoKitEventType` in src/types (the `open` kind is
spelled `open_` because `open` is a Lean keyword). -/
inductive EventType where
  | open_
  | close
  | error
  | message
  | reconnect
deriving DecidableEq, Repr

/-- A payload handed to the transport. `jsonPing t` stands for the string
`JSON.stringify ({type: "ping", timestamp: t})` built in `startHeartbeat`. -/
inductive Payload where
  | str (s : String)
  | jsonPing (timestamp : Nat)
deriving DecidableEq, Repr

/-- The `heartbeatMessage` option: a static string or a payload generator
(`string | (() => any)` in src/types). -/
inductive HeartbeatMessage where
  | str (s : String)
  | fn (f : Unit → Payload)

/-- Caller-supplied options (`SaoKitOptions`): every field optional. -/
structure SaoKitOptions where
  autoReconnect : Option Bool := none
  reconnectInterval : Option Nat := none
  maxReconnectAttempts : Option Nat := none
  heartbeat : Option Bool := none
  heartbeatInterval : Option Nat := none
  heartbeatMessage : Option HeartbeatMessage := none
  timeout : Option Nat := none

/-- The merged options record (`Required SaoKitOptions`). -/
structure RequiredOptions where
  autoReconnect : Bool
  reconnectInterval : Nat
  maxReconnectAttempts : Nat
  heartbeat : Bool
  heartbeatInterval : Nat
  heartbeatMessage : HeartbeatMessage
  timeout : Nat

/-- The constructor's option merge (index.ts lines 42–51): a single object
spread of the caller record over the documented defaults, so a field present
in the caller record wins and an absent field keeps its default. -/
def mergeOptions (o : SaoKitOptions) : RequiredOptions where
  autoReconnect := o.autoReconnect.getD true
  reconnectInterval := o.reconnectInterval.getD 5000
  maxReconnectAttempts := o.maxReconnectAttempts.getD 0
  heartbeat := o.heartbeat.getD false
  heartbeatInterval := o.heartbeatInterval.getD 30000
  heartbeatMessage := o.heartbeatMessage.getD (HeartbeatMessage.str "ping")
  timeout := o.timeout.getD 5000

/-- The all-absent caller record (calling the constructor with no options). -/
def emptyOptions : SaoKitOptions := {}

/-- C5: for every caller-supplied options record, each field absent from the
caller input gets its documented default (autoReconnect=true,
reconnectInterval=5000, maxReconnectAttempts=0, heartbeat=false,
heartbeatInterval=30000, heartbeatMessage="ping", timeout=5000) and each field
the caller supplied keeps exactly the supplied value; the merge is one flat
merge with no cross-field interference. -/
theorem C5_constructor_flat_merge (o : SaoKitOptions) :
    (o.autoReconnect = none → (mergeOptions o).autoReconnect = true) ∧
    (∀ v, o.autoReconnect = some v → (mergeOptions o).autoReconnect = v) ∧
    (o.reconnectInterval = none → (mergeOptions o).reconnectInterval = 5000) ∧
    (∀ v, o.reconnectInterval = some v → (mergeOptions o).reconnectInterval = v) ∧
    (o.maxReconnectAttempts = none → (mergeOptions o).maxReconnectAttempts = 0) ∧
    (∀ v, o.maxReconnectAttempts = some v → (mergeOptions o).maxReconnectAttempts = v) ∧
    (o.heartbeat = none → (mergeOptions o).heartbeat = false) ∧
    (∀ v, o.heartbeat = some v → (mergeOptions o).heartbeat = v) ∧
    (o.heartbeatInterval = none → (mergeOptions o).heartbeatInterval = 30000) ∧
    (∀ v, o.heartbeatInterval = some v → (mergeOptions o).heartbeatInterval = v) ∧
    (o.heartbeatMessage = none →
      (mergeOptions o).heartbeatMessage = HeartbeatMessage.str "ping") ∧
    (∀ v, o.heartbeatMessage = some v → (mergeOptions o).heartbeatMessage = v) ∧
    (o.timeout = none → (mergeOptions o).timeout = 5000) ∧
    (∀ v, o.timeout = some v → (mergeOptions o).timeout = v) := by
  refine ⟨?_, ?_, ?_, ?_, ?_, ?_, ?_, ?_, ?_, ?_, ?_, ?_, ?_, ?_⟩ <;>
    first
      | (intro h; simp [mergeOptions, h])
      | (intro v h; simp [mergeOptions, h])

/-- Witness for C5 at a concrete record: `timeout` supplied as 1234 is kept,
everything absent falls back to its default. -/
theorem C5_constructor_flat_merge_witness :
    (mergeOptions { emptyOptions with timeout := some 1234 }).autoReconnect = true ∧
    (mergeOptions { emptyOptions with timeout := some 1234 }).timeout = 1234 ∧
    (mergeOptions { emptyOptions with timeout := some 1234 }).heartbeat = false :=
  ⟨(C5_constructor_flat_merge _).1 rfl,
   (C5_constructor_flat_merge _).2.2.2.2.2.2.2.2.2.2.2.2.2 1234 rfl,
   (C5_constructor_flat_merge _).2.2.2.2.2.2.1 rfl⟩

/-- The kind of a pending timer. A `connectTimeout` carries the promise id the
closure captured (its body also reads the current `this.ws`); `reconnectDelay`
is the `setTimeout` armed by `attemptReconnect`; `heartbeat` is the
`setInterval` armed by `startHeartbeat`. -/
inductive TimerKind where
  | connectTimeout (promiseId : Nat)
  | reconnectDelay
  | heartbeat
deriving DecidableEq, Repr

/-- A timer currently armed in the runtime. -/
structure TimerEntry where
  id : Nat
  kind : TimerKind
deriving DecidableEq, Repr

/-- The data captured by the closures `connect()` installs on one transport
handle: the id of its connect-timeout (for `clearTimeout(timeout)`) and the id
of the promise its `resolve`/`reject` settle. -/
structure HandleCtx where
  timeoutId : Nat
  promiseId : Nat
deriving DecidableEq, Repr

/-- Settlement of one `connect()` promise. -/
inductive Outcome where
  | resolved
  | rejected (msg : String)
deriving DecidableEq, Repr

/-- The manager plus its runtime environment.

Manager fields mirror the `SaoKit` class fields: `ws` (current transport
handle id, `null` when absent), `reconnectAttempts`, `heartbeatTimer`,
`isManualClose`, and the merged `options`.

Environment fields: `handleStates` is the readyState of every transport handle
ever created (the handle id is the index, so `handleStates.length` counts the
handles created); `handleCtxs` records each handle's captured closure data;
`pendingTimers` holds the armed timers; `promises` holds the write-once
settlement cell of each `connect()` call; `emitted` logs every event dispatch
(the `Option Nat` is the attempt count carried by a `reconnect` event);
`sent` logs every payload handed to the transport; `now` is the clock read by
`Date.now()`. -/
structure Sys where
  options : RequiredOptions
  ws : Option Nat
  reconnectAttempts : Nat
  heartbeatTimer : Option Nat
  isManualClose : Bool
  handleStates : List Nat
  handleCtxs : List HandleCtx
  pendingTimers : List TimerEntry
  nextTimerId : Nat
  promises : List (Option Outcome)
  emitted : List (EventType × Option Nat)
  sent : List Payload
  now : Nat

/-- readyState of handle `h` (a handle id that was never created reads as
CLOSED; reachable states never look one up). -/
def wsReadyState (st : Sys) (h : Nat) : Nat :=
  st.handleStates[h]?.getD WS.CLOSED

/-- Overwrite the readyState of handle `h`. -/
def setHandleState (st : Sys) (h s : Nat) : Sys :=
  { st with handleStates := st.handleStates.set h s }

/-- `clearTimeout` / `clearInterval`: drop the pending timer with id `t`. -/
def clearTimer (st : Sys) (t : Nat) : Sys :=
  { st with pendingTimers := st.pendingTimers.filter (fun e => e.id != t) }

/-- JS promise settlement: `resolve`/`reject` write the cell only if it is
still unsettled; a second settlement call is a no-op. -/
def settle (st : Sys) (p : Nat) (o : Outcome) : Sys :=
  match st.promises[p]? with
  | some none => { st with promises := st.promises.set p (some o) }
  | _ => st

/-- Appending a dispatch to the event log stands for `this.emit(event, data)`
(the listener callbacks themselves are modelled separately below). -/
def emitEv (st : Sys) (e : EventType) (d : Option Nat) : Sys :=
  { st with emitted := st.emitted ++ [(e, d)] }

/-- `stopHeartbeat` (index.ts 307–315): clear the interval and null the field. -/
def stopHeartbeat (st : Sys) : Sys :=
  match st.heartbeatTimer with
  | some t => { clearTimer st t with heartbeatTimer := none }
  | none => st

/-- `startHeartbeat` (index.ts 276–300), timer-arming part: only when
`heartbeatInterval > 0`, arm a fresh interval and store its id (the `heartbeat`
boolean option is never consulted; a previously stored id is overwritten
without being cleared, as in the source). The interval body is `heartbeatTick`
below. -/
def startHeartbeat (st : Sys) : Sys :=
  if st.options.heartbeatInterval > 0 then
    { st with
      heartbeatTimer := some st.nextTimerId
      pendingTimers := st.pendingTimers ++ [TimerEntry.mk st.nextTimerId TimerKind.heartbeat]
      nextTimerId := st.nextTimerId + 1 }
  else st

/-- `attemptReconnect` (index.ts 251–269): if attempts are unlimited or the
counter is below the bound, increment the counter, dispatch `reconnect` with
the new count, and arm the reconnect-interval timer whose body calls
`connect()`; otherwise do nothing at all. -/
def attemptReconnect (st : Sys) : Sys :=
  if st.options.maxReconnectAttempts = 0 ∨
      st.reconnectAttempts < st.options.maxReconnectAttempts then
    let st1 := { st with reconnectAttempts := st.reconnectAttempts + 1 }
    let st2 := emitEv st1 EventType.reconnect (some st1.reconnectAttempts)
    { st2 with
      pendingTimers := st2.pendingTimers ++ [TimerEntry.mk st2.nextTimerId TimerKind.reconnectDelay]
      nextTimerId := st2.nextTimerId + 1 }
  else st

/-- `connect()` (index.ts 77–152), synchronous part: create a fresh transport
handle in the Connecting state, store it in `this.ws`, reset `isManualClose`,
allocate the fresh promise cell, and arm the connect-timeout whose closure
captures this promise. The handlers' bodies are the `handle*` functions below,
looked up through the recorded `HandleCtx`. -/
def connect (st : Sys) : Sys :=
  { st with
    ws := some st.handleStates.length
    isManualClose := false
    handleStates := st.handleStates ++ [WS.CONNECTING]
    handleCtxs := st.handleCtxs ++ [HandleCtx.mk st.nextTimerId st.promises.length]
    promises := st.promises ++ [none]
    pendingTimers :=
      st.pendingTimers ++ [TimerEntry.mk st.nextTimerId (TimerKind.connectTimeout st.promises.length)]
    nextTimerId := st.nextTimerId + 1 }

/-- A `WebSocket.close()` request on handle `h`: a socket that is Connecting or
Open moves to Closing (the close notification arrives later from the
environment); otherwise nothing happens. -/
def requestClose (st : Sys) (h : Nat) : Sys :=
  if wsReadyState st h = WS.CONNECTING ∨ wsReadyState st h = WS.OPEN then
    setHandleState st h WS.CLOSING
  else st

/-- `close(code?, reason?)` (index.ts 178–188): set the manual-close flag,
stop the heartbeat, and if a transport handle exists request its close. -/
def close (st : Sys) : Sys :=
  let st1 := stopHeartbeat { st with isManualClose := true }
  match st1.ws with
  | some h => requestClose st1 h
  | none => st1

/-- Message shown by `send` when the socket is not open. -/
def notConnectedMsg : String := "WebSocket 连接未建立或已关闭"

/-- `send(data)` (index.ts 160–169): forward the payload iff the current
handle's readyState is exactly OPEN, otherwise throw without touching the
transport. -/
def send (st : Sys) (p : Payload) : Except String Sys :=
  match st.ws with
  | some h =>
    if wsReadyState st h = WS.OPEN then
      Except.ok { st with sent := st.sent ++ [p] }
    else Except.error notConnectedMsg
  | none => Except.error notConnectedMsg

/-- Payload computation inside the heartbeat interval body (index.ts 284–294):
invoke the generator if `heartbeatMessage` is a function, else use the static
string if truthy, else fall back to the default JSON ping object. -/
def heartbeatPayload (m : HeartbeatMessage) (now : Nat) : Payload :=
  match m with
  | HeartbeatMessage.fn f => f ()
  | HeartbeatMessage.str s => if s ≠ "" then Payload.str s else Payload.jsonPing now

/-- The heartbeat interval body (index.ts 280–298): if the current handle is
open, compute the payload and send it through the public `send` path. (The
`Except.error` branch is unreachable because `send` succeeds on an open
handle.) -/
def heartbeatTick (st : Sys) : Sys :=
  match st.ws with
  | some h =>
    if wsReadyState st h = WS.OPEN then
      match send st (heartbeatPayload st.options.heartbeatMessage st.now) with
      | Except.ok st1 => st1
      | Except.error _ => st
    else st
  | none => st

/-- The `onopen` handler installed on handle `h` (index.ts 98–109): clear the
connect-timeout, reset `reconnectAttempts` to 0, start the heartbeat, dispatch
`open`, resolve the captured promise. -/
def handleOpen (st : Sys) (h : Nat) : Sys :=
  match st.handleCtxs[h]? with
  | some ctx =>
    let st1 := clearTimer st ctx.timeoutId
    let st2 := { st1 with reconnectAttempts := 0 }
    let st3 := startHeartbeat st2
    let st4 := emitEv st3 EventType.open_ none
    settle st4 ctx.promiseId Outcome.resolved
  | none => st

/-- The `onmessage` handler (index.ts 112–115): dispatch `message`. -/
def handleMessage (st : Sys) (_h : Nat) : Sys :=
  emitEv st EventType.message none

/-- The `onclose` handler installed on handle `h` (index.ts 118–131): clear
the connect-timeout, stop the heartbeat, dispatch `close`, and — only when the
close was not manual and auto-reconnect is on — invoke the reconnection
scheduler. -/
def handleClose (st : Sys) (h : Nat) : Sys :=
  match st.handleCtxs[h]? with
  | some ctx =>
    let st1 := clearTimer st ctx.timeoutId
    let st2 := stopHeartbeat st1
    let st3 := emitEv st2 EventType.close none
    if !st3.isManualClose && st3.options.autoReconnect then attemptReconnect st3
    else st3
  | none => st

/-- The `onerror` handler installed on handle `h` (index.ts 134–145): clear
the connect-timeout, dispatch `error`, reject the captured promise with the
generic connection error. -/
def handleError (st : Sys) (h : Nat) : Sys :=
  match st.handleCtxs[h]? with
  | some ctx =>
    let st1 := clearTimer st ctx.timeoutId
    let st2 := emitEv st1 EventType.error none
    settle st2 ctx.promiseId (Outcome.rejected "WebSocket connection error")
  | none => st

/-- The connect-timeout body (index.ts 87–95): it reads the CURRENT `this.ws`;
only if that handle is still Connecting does it request the transport close
and reject the captured promise with the timeout error. -/
def connectTimeoutFire (st : Sys) (p : Nat) : Sys :=
  match st.ws with
  | some h =>
    if wsReadyState st h = WS.CONNECTING then
      settle (requestClose st h) p (Outcome.rejected "连接超时")
    else st
  | none => st

/-- Fire pending timer `t`: a `setTimeout` is removed from the pending set and
its body runs (connect-timeout body, or the reconnect delay body which calls
`connect()` again); a heartbeat `setInterval` stays pending and its body runs. -/
def fireTimer (st : Sys) (t : Nat) : Sys :=
  match st.pendingTimers.find? (fun e => e.id == t) with
  | some entry =>
    match entry.kind with
    | TimerKind.connectTimeout p => connectTimeoutFire (clearTimer st t) p
    | TimerKind.reconnectDelay => connect (clearTimer st t)
    | TimerKind.heartbeat => heartbeatTick st
  | none => st

/-- One occurrence in a run: a caller call, a transport notification delivered
to a specific handle, a timer firing chosen by the environment, or the clock
advancing. -/
inductive Ev where
  | callConnect
  | callClose
  | wsOpen (h : Nat)
  | wsClose (h : Nat)
  | wsError (h : Nat)
  | wsMessage (h : Nat)
  | fire (t : Nat)
  | advance (d : Nat)

/-- The step function: transport notifications are guarded by what a real
socket can deliver (`open` only while Connecting, `close` only once per
handle, `message` only while Open), update the handle's readyState, and run
the handler `connect()` installed on that handle. -/
def step (st : Sys) (ev : Ev) : Sys :=
  match ev with
  | Ev.callConnect => connect st
  | Ev.callClose => close st
  | Ev.wsOpen h =>
    if wsReadyState st h = WS.CONNECTING then handleOpen (setHandleState st h WS.OPEN) h
    else st
  | Ev.wsClose h =>
    if wsReadyState st h ≠ WS.CLOSED then handleClose (setHandleState st h WS.CLOSED) h
    else st
  | Ev.wsError h =>
    if wsReadyState st h ≠ WS.CLOSED then handleError st h
    else st
  | Ev.wsMessage h =>
    if wsReadyState st h = WS.OPEN then handleMessage st h
    else st
  | Ev.fire t => fireTimer st t
  | Ev.advance d => { st with now := st.now + d }

/-- The state right after `new SaoKit(url, opts)`. -/
def init (opts : SaoKitOptions) : Sys where
  options := mergeOptions opts
  ws := none
  reconnectAttempts := 0
  heartbeatTimer := none
  isManualClose := false
  handleStates := []
  handleCtxs := []
  pendingTimers := []
  nextTimerId := 0
  promises := []
  emitted := []
  sent := []
  now := 0

/-- Run a whole event sequence from a fresh manager. -/
def run (opts : SaoKitOptions) (evs : List Ev) : Sys :=
  evs.foldl step (init opts)

/-- The `readyState` getter (index.ts 323–326): `this.ws?.readyState ?? CLOSED`. -/
def readyState (st : Sys) : Nat :=
  match st.ws with
  | some h => wsReadyState st h
  | none => WS.CLOSED

/-- The `isConnected` getter (index.ts 334–337):
`this.ws?.readyState === WebSocket.OPEN`. -/
def isConnected (st : Sys) : Bool :=
  match st.ws with
  | some h => wsReadyState st h == WS.OPEN
  | none => false

/-- C10: with no transport handle the `readyState` getter returns CLOSED and
`isConnected` returns false; `isConnected` is true exactly when a handle
exists and its readiness state is exactly OPEN. -/
theorem C10_getters_no_handle_closed (st : Sys) :
    (st.ws = none → readyState st = WS.CLOSED ∧ isConnected st = false) ∧
    (isConnected st = true ↔ ∃ h, st.ws = some h ∧ wsReadyState st h = WS.OPEN) := by
  constructor
  · intro h
    simp [readyState, isConnected, h]
  · cases hws : st.ws with
    | none => simp [isConnected, hws]
    | some h => simp [isConnected, hws]

/-- Witness for C10: a fresh manager reports CLOSED and not connected; after a
connect and an open notification it reports connected. -/
theorem C10_getters_no_handle_closed_witness :
    readyState (init emptyOptions) = WS.CLOSED ∧
    isConnected (init emptyOptions) = false ∧
    isConnected (run emptyOptions [Ev.callConnect, Ev.wsOpen 0]) = true :=
  ⟨((C10_getters_no_handle_closed (init emptyOptions)).1 rfl).1,
   ((C10_getters_no_handle_closed (init emptyOptions)).1 rfl).2,
   (C10_getters_no_handle_closed (run emptyOptions [Ev.callConnect, Ev.wsOpen 0])).2.mpr
     ⟨0, rfl, rfl⟩⟩

/-- C7: `send` forwards the payload iff a transport handle exists and its
readyState is exactly OPEN (appending exactly that payload to the transport's
log); in every other state it fails synchronously with the not-connected error
and no state with the payload delivered exists. -/
theorem C7_send_iff_open (st : Sys) (p : Payload) :
    ((∃ st1, send st p = Except.ok st1) ↔
      ∃ h, st.ws = some h ∧ wsReadyState st h = WS.OPEN) ∧
    (∀ st1, send st p = Except.ok st1 →
      st1 = { st with sent := st.sent ++ [p] }) ∧
    ((¬ ∃ h, st.ws = some h ∧ wsReadyState st h = WS.OPEN) →
      send st p = Except.error notConnectedMsg) := by
  refine ⟨?_, ?_, ?_⟩
  · cases hws : st.ws with
    | none => simp [send, hws]
    | some h =>
      by_cases hrs : wsReadyState st h = WS.OPEN <;> simp [send, hws, hrs]
  · intro st1 hok
    cases hws : st.ws with
    | none => simp [send, hws] at hok
    | some h =>
      by_cases hrs : wsReadyState st h = WS.OPEN
      · simp [send, hws, hrs] at hok
        exact hok.symm
      · simp [send, hws, hrs] at hok
  · intro hno
    cases hws : st.ws with
    | none => simp [send, hws]
    | some h =>
      have hrs : ¬ wsReadyState st h = WS.OPEN := fun hc => hno ⟨h, hws, hc⟩
      simp [send, hws, hrs]

/-- Witness for C7: sending on an open connection succeeds; sending on a fresh
manager fails with the not-connected error. -/
theorem C7_send_iff_open_witness :
    (∃ st1, send (run emptyOptions [Ev.callConnect, Ev.wsOpen 0]) (Payload.str "x")
      = Except.ok st1) ∧
    send (init emptyOptions) (Payload.str "x") = Except.error notConnectedMsg :=
  ⟨(C7_send_iff_open (run emptyOptions [Ev.callConnect, Ev.wsOpen 0]) (Payload.str "x")).1.mpr
     ⟨0, rfl, rfl⟩,
   (C7_send_iff_open (init emptyOptions) (Payload.str "x")).2.2
     (fun hex => Option.noConfusion hex.choose_spec.1)⟩

/-- C3: on a successful open (an `open` notification for a Connecting handle),
the heartbeat loop is started iff `heartbeatInterval > 0`; the boolean
`heartbeat` option is never consulted (the state `st` is arbitrary in it, and
in particular the default configuration has heartbeat=false yet
heartbeatInterval=30000, so the loop runs). -/
theorem C3_heartbeat_iff_interval_pos (st : Sys) (h : Nat)
    (hcon : wsReadyState st h = WS.CONNECTING)
    (hctx : h < st.handleCtxs.length)
    (hhb : st.heartbeatTimer = none) :
    ((step st (Ev.wsOpen h)).heartbeatTimer.isSome ↔ 0 < st.options.heartbeatInterval) := by
  obtain ⟨ctx, hget⟩ : ∃ ctx, st.handleCtxs[h]? = some ctx :=
    ⟨_, List.getElem?_eq_getElem hctx⟩
  have hget' : (setHandleState st h WS.OPEN).handleCtxs[h]? = some ctx := hget
  simp only [step, hcon, if_pos, handleOpen, hget', setHandleState, clearTimer,
    startHeartbeat, emitEv, settle]
  by_cases hpos : 0 < st.options.heartbeatInterval
  · simp only [hpos, if_pos]
    split
    · split <;> simp
    · next heq =>
        rw [hget] at heq
        exact Option.noConfusion heq
  · simp only [hpos, if_neg, if_false]
    split
    · split <;> simp [hhb]
    · simp [hhb]

/-- Witness for C3: with the default configuration (heartbeat=false,
heartbeatInterval=30000), opening the first connection arms the heartbeat
loop. -/
theorem C3_heartbeat_iff_interval_pos_witness :
    ((step (run emptyOptions [Ev.callConnect]) (Ev.wsOpen 0)).heartbeatTimer.isSome ↔
      0 < (run emptyOptions [Ev.callConnect]).options.heartbeatInterval) :=
  C3_heartbeat_iff_interval_pos (run emptyOptions [Ev.callConnect]) 0 rfl
    (by decide) rfl

/-- C8: on a heartbeat tick with the transport open, the payload sent is the
generator's result when `heartbeatMessage` is callable, else the static string
when truthy (non-empty), else the default JSON ping object with the current
timestamp — and the tick delivers it through the public `send` path. -/
theorem C8_heartbeat_tick_payload (st : Sys) (h : Nat)
    (hws : st.ws = some h) (hopen : wsReadyState st h = WS.OPEN) :
    heartbeatTick st =
      { st with sent := st.sent ++ [heartbeatPayload st.options.heartbeatMessage st.now] } ∧
    send st (heartbeatPayload st.options.heartbeatMessage st.now) =
      Except.ok (heartbeatTick st) ∧
    (∀ f, st.options.heartbeatMessage = HeartbeatMessage.fn f →
      heartbeatPayload st.options.heartbeatMessage st.now = f ()) ∧
    (∀ s, s ≠ "" → st.options.heartbeatMessage = HeartbeatMessage.str s →
      heartbeatPayload st.options.heartbeatMessage st.now = Payload.str s) ∧
    (st.options.heartbeatMessage = HeartbeatMessage.str "" →
      heartbeatPayload st.options.heartbeatMessage st.now = Payload.jsonPing st.now) := by
  refine ⟨?_, ?_, ?_, ?_, ?_⟩
  · simp [heartbeatTick, send, hws, hopen]
  · simp [heartbeatTick, send, hws, hopen]
  · intro f hf; simp [heartbeatPayload, hf]
  · intro s hs hf; simp [heartbeatPayload, hf, hs]
  · intro hf; simp [heartbeatPayload, hf]

/-- Witness for C8 on a concretely opened connection with the default options
(static truthy payload "ping"). -/
theorem C8_heartbeat_tick_payload_witness :
    heartbeatTick (run emptyOptions [Ev.callConnect, Ev.wsOpen 0]) =
      { run emptyOptions [Ev.callConnect, Ev.wsOpen 0] with
        sent := (run emptyOptions [Ev.callConnect, Ev.wsOpen 0]).sent ++
          [heartbeatPayload
            (run emptyOptions [Ev.callConnect, Ev.wsOpen 0]).options.heartbeatMessage
            (run emptyOptions [Ev.callConnect, Ev.wsOpen 0]).now] } :=
  (C8_heartbeat_tick_payload (run emptyOptions [Ev.callConnect, Ev.wsOpen 0]) 0 rfl rfl).1

/-- The timer-clearing helper leaves the attempt counter alone. -/
@[simp] theorem clearTimer_reconnectAttempts (st : Sys) (t : Nat) :
    (clearTimer st t).reconnectAttempts = st.reconnectAttempts := rfl

/-- Event dispatch leaves the attempt counter alone. -/
@[simp] theorem emitEv_reconnectAttempts (st : Sys) (e : EventType) (d : Option Nat) :
    (emitEv st e d).reconnectAttempts = st.reconnectAttempts := rfl

/-- Changing a handle's readyState leaves the attempt counter alone. -/
@[simp] theorem setHandleState_reconnectAttempts (st : Sys) (h s : Nat) :
    (setHandleState st h s).reconnectAttempts = st.reconnectAttempts := rfl

/-- Promise settlement leaves the attempt counter alone. -/
@[simp] theorem settle_reconnectAttempts (st : Sys) (p : Nat) (o : Outcome) :
    (settle st p o).reconnectAttempts = st.reconnectAttempts := by
  unfold settle
  split <;> rfl

/-- Stopping the heartbeat leaves the attempt counter alone. -/
@[simp] theorem stopHeartbeat_reconnectAttempts (st : Sys) :
    (stopHeartbeat st).reconnectAttempts = st.reconnectAttempts := by
  unfold stopHeartbeat
  split <;> rfl

/-- Starting the heartbeat leaves the attempt counter alone. -/
@[simp] theorem startHeartbeat_reconnectAttempts (st : Sys) :
    (startHeartbeat st).reconnectAttempts = st.reconnectAttempts := by
  unfold startHeartbeat
  split <;> rfl

/-- A transport close request leaves the attempt counter alone. -/
@[simp] theorem requestClose_reconnectAttempts (st : Sys) (h : Nat) :
    (requestClose st h).reconnectAttempts = st.reconnectAttempts := by
  unfold requestClose
  split <;> rfl

/-- `connect()` itself leaves the attempt counter alone (it is reset only in
the open handler). -/
@[simp] theorem connect_reconnectAttempts (st : Sys) :
    (connect st).reconnectAttempts = st.reconnectAttempts := rfl

/-- `close()` leaves the attempt counter alone. -/
@[simp] theorem close_reconnectAttempts (st : Sys) :
    (close st).reconnectAttempts = st.reconnectAttempts := by
  simp only [close]
  split <;> simp

/-- The error handler leaves the attempt counter alone. -/
@[simp] theorem handleError_reconnectAttempts (st : Sys) (h : Nat) :
    (handleError st h).reconnectAttempts = st.reconnectAttempts := by
  unfold handleError
  split <;> simp

/-- The message handler leaves the attempt counter alone. -/
@[simp] theorem handleMessage_reconnectAttempts (st : Sys) (h : Nat) :
    (handleMessage st h).reconnectAttempts = st.reconnectAttempts := rfl

/-- The connect-timeout body leaves the attempt counter alone. -/
@[simp] theorem connectTimeoutFire_reconnectAttempts (st : Sys) (p : Nat) :
    (connectTimeoutFire st p).reconnectAttempts = st.reconnectAttempts := by
  unfold connectTimeoutFire
  split
  · split <;> simp
  · rfl

/-- The heartbeat body leaves the attempt counter alone. -/
@[simp] theorem heartbeatTick_reconnectAttempts (st : Sys) :
    (heartbeatTick st).reconnectAttempts = st.reconnectAttempts := by
  cases hws : st.ws with
  | none => simp [heartbeatTick, hws]
  | some h =>
    by_cases hrs : wsReadyState st h = WS.OPEN <;>
      simp [heartbeatTick, hws, hrs, send]

/-- The scheduler can only leave the counter alone (bound reached) or
increment it, so it never produces 0 from a nonzero counter. -/
theorem attemptReconnect_attempts_zero (st : Sys)
    (hz : (attemptReconnect st).reconnectAttempts = 0) :
    st.reconnectAttempts = 0 := by
  unfold attemptReconnect at hz
  split at hz
  · simp [emitEv] at hz
  · exact hz

/-- The close handler never zeroes a nonzero attempt counter. -/
theorem handleClose_attempts_zero (st : Sys) (h : Nat)
    (hz : (handleClose st h).reconnectAttempts = 0) :
    st.reconnectAttempts = 0 := by
  simp only [handleClose] at hz
  split at hz
  · split at hz
    · simpa using attemptReconnect_attempts_zero _ hz
    · simpa using hz
  · exact hz

/-- Timer firings never zero a nonzero attempt counter. -/
theorem fireTimer_attempts_zero (st : Sys) (t : Nat)
    (hz : (fireTimer st t).reconnectAttempts = 0) :
    st.reconnectAttempts = 0 := by
  simp only [fireTimer] at hz
  split at hz
  · split at hz <;> simpa using hz
  · exact hz

/-- The open handler resets the attempt counter to 0. -/
theorem handleOpen_attempts (st : Sys) (h : Nat) (ctx : HandleCtx)
    (hget : st.handleCtxs[h]? = some ctx) :
    (handleOpen st h).reconnectAttempts = 0 := by
  unfold handleOpen
  simp [hget]

/-- C6: the reconnection scheduler never schedules attempt N+1 when
`maxReconnectAttempts = N > 0` (once the counter reached N an invocation takes
no action at all); with `maxReconnectAttempts = 0` every invocation schedules;
a scheduled attempt increments the counter by exactly 1 and dispatches a
`reconnect` event carrying the new count before arming the timer; and the
counter is reset to 0 exactly on successful open (no other step produces 0
from a nonzero counter). -/
theorem C6_reconnect_attempt_bookkeeping (st : Sys) (ev : Ev) :
    (0 < st.options.maxReconnectAttempts →
      st.options.maxReconnectAttempts ≤ st.reconnectAttempts →
      attemptReconnect st = st) ∧
    (st.options.maxReconnectAttempts = 0 ∨
        st.reconnectAttempts < st.options.maxReconnectAttempts →
      attemptReconnect st = { st with
        reconnectAttempts := st.reconnectAttempts + 1
        emitted := st.emitted ++ [(EventType.reconnect, some (st.reconnectAttempts + 1))]
        pendingTimers :=
          st.pendingTimers ++ [TimerEntry.mk st.nextTimerId TimerKind.reconnectDelay]
        nextTimerId := st.nextTimerId + 1 }) ∧
    ((step st ev).reconnectAttempts = 0 →
      st.reconnectAttempts = 0 ∨ ∃ h, ev = Ev.wsOpen h) ∧
    (∀ h, wsReadyState st h = WS.CONNECTING → h < st.handleCtxs.length →
      (step st (Ev.wsOpen h)).reconnectAttempts = 0) := by
  refine ⟨?_, ?_, ?_, ?_⟩
  · intro h1 h2
    unfold attemptReconnect
    rw [if_neg (by omega)]
  · intro hg
    unfold attemptReconnect
    rw [if_pos hg]
    rfl
  · intro hz
    cases ev with
    | callConnect => exact Or.inl (by simpa [step] using hz)
    | callClose => exact Or.inl (by simpa [step] using hz)
    | wsOpen h => exact Or.inr ⟨h, rfl⟩
    | wsClose h =>
      left
      simp only [step] at hz
      split at hz
      · exact handleClose_attempts_zero (setHandleState st h WS.CLOSED) h hz
      · exact hz
    | wsError h =>
      left
      simp only [step] at hz
      split at hz
      · simpa using hz
      · exact hz
    | wsMessage h =>
      left
      simp only [step] at hz
      split at hz
      · simpa using hz
      · exact hz
    | fire t => exact Or.inl (fireTimer_attempts_zero _ _ hz)
    | advance d => exact Or.inl hz
  · intro h hcon hctx
    obtain ⟨ctx, hget⟩ : ∃ ctx, st.handleCtxs[h]? = some ctx :=
      ⟨_, List.getElem?_eq_getElem hctx⟩
    simp only [step]
    rw [if_pos hcon]
    exact handleOpen_attempts _ _ ctx hget

/-- Witness for C6 with `maxReconnectAttempts = 1`: after the first scheduled
attempt the counter is 1 and a further scheduler invocation takes no action;
with the default (unlimited) configuration an invocation schedules; and a
successful open resets the counter. -/
theorem C6_reconnect_attempt_bookkeeping_witness :
    attemptReconnect
        (run { emptyOptions with maxReconnectAttempts := some 1 }
          [Ev.callConnect, Ev.wsClose 0]) =
      run { emptyOptions with maxReconnectAttempts := some 1 }
        [Ev.callConnect, Ev.wsClose 0] ∧
    (run emptyOptions [Ev.callConnect, Ev.wsClose 0]).reconnectAttempts = 1 ∧
    (step (run emptyOptions [Ev.callConnect, Ev.wsClose 0, Ev.fire 1])
        (Ev.wsOpen 1)).reconnectAttempts = 0 := by
  refine ⟨?_, rfl, ?_⟩
  · exact (C6_reconnect_attempt_bookkeeping _ Ev.callConnect).1 (by decide) (by decide)
  · exact (C6_reconnect_attempt_bookkeeping _ Ev.callConnect).2.2.2 1 (by decide) (by decide)

/-- Clearing a timer leaves the promise cells alone. -/
@[simp] theorem clearTimer_promises (st : Sys) (t : Nat) :
    (clearTimer st t).promises = st.promises := rfl

/-- Event dispatch leaves the promise cells alone. -/
@[simp] theorem emitEv_promises (st : Sys) (e : EventType) (d : Option Nat) :
    (emitEv st e d).promises = st.promises := rfl

/-- Changing a handle's readyState leaves the promise cells alone. -/
@[simp] theorem setHandleState_promises (st : Sys) (h s : Nat) :
    (setHandleState st h s).promises = st.promises := rfl

/-- A transport close request leaves the promise cells alone. -/
@[simp] theorem requestClose_promises (st : Sys) (h : Nat) :
    (requestClose st h).promises = st.promises := by
  unfold requestClose
  split <;> rfl

/-- Stopping the heartbeat leaves the promise cells alone. -/
@[simp] theorem stopHeartbeat_promises (st : Sys) :
    (stopHeartbeat st).promises = st.promises := by
  unfold stopHeartbeat
  split <;> rfl

/-- Starting the heartbeat leaves the promise cells alone. -/
@[simp] theorem startHeartbeat_promises (st : Sys) :
    (startHeartbeat st).promises = st.promises := by
  unfold startHeartbeat
  split <;> rfl

/-- The reconnection scheduler leaves the promise cells alone. -/
@[simp] theorem attemptReconnect_promises (st : Sys) :
    (attemptReconnect st).promises = st.promises := by
  unfold attemptReconnect
  split <;> rfl

/-- `close()` leaves the promise cells alone. -/
@[simp] theorem close_promises (st : Sys) :
    (close st).promises = st.promises := by
  simp only [close]
  split <;> simp

/-- The message handler leaves the promise cells alone. -/
@[simp] theorem handleMessage_promises (st : Sys) (h : Nat) :
    (handleMessage st h).promises = st.promises := rfl

/-- The close handler leaves the promise cells alone (it settles nothing). -/
@[simp] theorem handleClose_promises (st : Sys) (h : Nat) :
    (handleClose st h).promises = st.promises := by
  simp only [handleClose]
  split
  · split <;> simp
  · rfl

/-- The heartbeat body leaves the promise cells alone. -/
@[simp] theorem heartbeatTick_promises (st : Sys) :
    (heartbeatTick st).promises = st.promises := by
  cases hws : st.ws with
  | none => simp [heartbeatTick, hws]
  | some h =>
    by_cases hrs : wsReadyState st h = WS.OPEN <;>
      simp [heartbeatTick, hws, hrs, send]

/-- A settled promise cell survives any later settlement call: `settle` writes
only unsettled cells, exactly as a JS promise ignores a second
`resolve`/`reject`. -/
theorem settle_settled_persists (st : Sys) (p : Nat) (o : Outcome) (q : Nat) (oq : Outcome)
    (hq : st.promises[q]? = some (some oq)) :
    (settle st p o).promises[q]? = some (some oq) := by
  unfold settle
  split
  · next heq =>
    by_cases hpq : p = q
    · subst hpq
      rw [hq] at heq
      simp at heq
    · rw [show ({ st with promises := st.promises.set p (some o) } : Sys).promises
          = st.promises.set p (some o) from rfl]
      rw [List.getElem?_set_ne hpq]
      exact hq
  · exact hq

/-- A settled promise cell survives appending a fresh cell for a new
`connect()` call. -/
theorem append_settled_persists (l : List (Option Outcome)) (x : Option Outcome)
    (q : Nat) (oq : Outcome) (hq : l[q]? = some (some oq)) :
    (l ++ [x])[q]? = some (some oq) := by
  obtain ⟨hlt, -⟩ := List.getElem?_eq_some.mp hq
  rw [List.getElem?_append_left hlt]
  exact hq

/-- A settled promise cell survives the open handler. -/
theorem handleOpen_settled_persists (st : Sys) (h : Nat) (q : Nat) (oq : Outcome)
    (hq : st.promises[q]? = some (some oq)) :
    (handleOpen st h).promises[q]? = some (some oq) := by
  unfold handleOpen
  split
  · apply settle_settled_persists
    simpa using hq
  · exact hq

/-- A settled promise cell survives the error handler. -/
theorem handleError_settled_persists (st : Sys) (h : Nat) (q : Nat) (oq : Outcome)
    (hq : st.promises[q]? = some (some oq)) :
    (handleError st h).promises[q]? = some (some oq) := by
  unfold handleError
  split
  · apply settle_settled_persists
    simpa using hq
  · exact hq

/-- A settled promise cell survives the connect-timeout body. -/
theorem connectTimeoutFire_settled_persists (st : Sys) (p : Nat) (q : Nat) (oq : Outcome)
    (hq : st.promises[q]? = some (some oq)) :
    (connectTimeoutFire st p).promises[q]? = some (some oq) := by
  unfold connectTimeoutFire
  split
  · split
    · apply settle_settled_persists
      simpa using hq
    · exact hq
  · exact hq

/-- A settled promise cell survives any timer firing. -/
theorem fireTimer_settled_persists (st : Sys) (t : Nat) (q : Nat) (oq : Outcome)
    (hq : st.promises[q]? = some (some oq)) :
    (fireTimer st t).promises[q]? = some (some oq) := by
  simp only [fireTimer]
  split
  · split
    · exact connectTimeoutFire_settled_persists _ _ _ _ (by simpa using hq)
    · exact append_settled_persists _ _ _ _ (by simpa using hq)
    · simpa using hq
  · exact hq

/-- A settled promise cell survives any single step of the system. -/
theorem step_settled_persists (st : Sys) (ev : Ev) (q : Nat) (oq : Outcome)
    (hq : st.promises[q]? = some (some oq)) :
    (step st ev).promises[q]? = some (some oq) := by
  cases ev with
  | callConnect => exact append_settled_persists _ _ _ _ hq
  | callClose => simpa [step] using hq
  | wsOpen h =>
    simp only [step]
    split
    · exact handleOpen_settled_persists _ _ _ _ (by simpa using hq)
    · exact hq
  | wsClose h =>
    simp only [step]
    split
    · simpa using hq
    · exact hq
  | wsError h =>
    simp only [step]
    split
    · exact handleError_settled_persists _ _ _ _ hq
    · exact hq
  | wsMessage h =>
    simp only [step]
    split
    · simpa using hq
    · exact hq
  | fire t => exact fireTimer_settled_persists _ _ _ _ hq
  | advance d => exact hq

/-- A settled promise cell survives any continuation of the run. -/
theorem trace_settled_persists (st : Sys) (more : List Ev) (q : Nat) (oq : Outcome)
    (hq : st.promises[q]? = some (some oq)) :
    (more.foldl step st).promises[q]? = some (some oq) := by
  induction more generalizing st with
  | nil => exact hq
  | cons ev rest ih => exact ih _ (step_settled_persists st ev q oq hq)

/-- C4: each `connect()` call settles its outcome at most once — once its
promise cell holds an outcome, no continuation of the run (error notifications,
close notifications, timeout expiry from the abandoned handle, further calls)
can ever change it, so a call never both resolves and rejects and never
settles twice. All settlement paths in the code go through the write-once
`settle`, mirroring JS promise semantics where a later `resolve`/`reject` on a
settled promise is a no-op. -/
theorem C4_connect_settles_once (opts : SaoKitOptions) (evs more : List Ev)
    (q : Nat) (oq : Outcome)
    (hq : (run opts evs).promises[q]? = some (some oq)) :
    (run opts (evs ++ more)).promises[q]? = some (some oq) := by
  have hsplit : run opts (evs ++ more) = more.foldl step (run opts evs) := by
    simp [run, List.foldl_append]
  rw [hsplit]
  exact trace_settled_persists _ _ _ _ hq

/-- Witness for C4: the first connect resolves on open, and a later error
notification, close notification and stray timeout firing from the same
attempt leave the outcome resolved. -/
theorem C4_connect_settles_once_witness :
    (run emptyOptions [Ev.callConnect, Ev.wsOpen 0]).promises[0]?
      = some (some Outcome.resolved) ∧
    (run emptyOptions ([Ev.callConnect, Ev.wsOpen 0] ++
        [Ev.wsError 0, Ev.wsClose 0, Ev.fire 0])).promises[0]?
      = some (some Outcome.resolved) :=
  ⟨rfl,
   C4_connect_settles_once emptyOptions [Ev.callConnect, Ev.wsOpen 0]
     [Ev.wsError 0, Ev.wsClose 0, Ev.fire 0] 0 Outcome.resolved rfl⟩

/-- Clearing a timer leaves the current handle alone. -/
@[simp] theorem clearTimer_ws (st : Sys) (t : Nat) : (clearTimer st t).ws = st.ws := rfl

/-- Clearing a timer leaves the handle states alone. -/
@[simp] theorem clearTimer_handleStates (st : Sys) (t : Nat) :
    (clearTimer st t).handleStates = st.handleStates := rfl

/-- Stopping the heartbeat leaves the current handle alone. -/
@[simp] theorem stopHeartbeat_ws (st : Sys) : (stopHeartbeat st).ws = st.ws := by
  unfold stopHeartbeat
  split <;> rfl

/-- Stopping the heartbeat leaves the handle states alone. -/
@[simp] theorem stopHeartbeat_handleStates (st : Sys) :
    (stopHeartbeat st).handleStates = st.handleStates := by
  unfold stopHeartbeat
  split <;> rfl

/-- Stopping the heartbeat leaves the manual-close flag alone. -/
@[simp] theorem stopHeartbeat_isManualClose (st : Sys) :
    (stopHeartbeat st).isManualClose = st.isManualClose := by
  unfold stopHeartbeat
  split <;> rfl

/-- Changing a handle state leaves the current handle alone. -/
@[simp] theorem setHandleState_ws (st : Sys) (h s : Nat) :
    (setHandleState st h s).ws = st.ws := rfl

/-- Changing a handle state leaves the manual-close flag alone. -/
@[simp] theorem setHandleState_isManualClose (st : Sys) (h s : Nat) :
    (setHandleState st h s).isManualClose = st.isManualClose := rfl

/-- A transport close request leaves the manual-close flag alone. -/
@[simp] theorem requestClose_isManualClose (st : Sys) (h : Nat) :
    (requestClose st h).isManualClose = st.isManualClose := by
  unfold requestClose
  split <;> rfl

/-- `close()` always sets the manual-close flag. -/
@[simp] theorem close_isManualClose (st : Sys) : (close st).isManualClose = true := by
  simp only [close]
  split <;> simp

/-- readyState of the overwritten handle after a state update. -/
theorem wsReadyState_set_self (st : Sys) (h s : Nat) (hlt : h < st.handleStates.length) :
    wsReadyState (setHandleState st h s) h = s := by
  unfold wsReadyState setHandleState
  simp [List.getElem?_set_eq_of_lt s hlt]

/-- C9: if `close()` is called while a `connect()` is pending (current handle
still Connecting), a later firing of that connect-timeout does nothing beyond
disappearing from the pending set: the body's `readyState === CONNECTING`
guard fails because the caller's close moved the handle to Closing, so it
neither force-closes the transport again nor settles the outcome with a
timeout error. -/
theorem C9_close_pending_connect_disarms_timeout (st : Sys) (h t p : Nat)
    (hws : st.ws = some h)
    (hcon : wsReadyState st h = WS.CONNECTING)
    (hfind : (step st Ev.callClose).pendingTimers.find? (fun e => e.id == t)
      = some (TimerEntry.mk t (TimerKind.connectTimeout p))) :
    step (step st Ev.callClose) (Ev.fire t) = clearTimer (step st Ev.callClose) t := by
  have hlt : h < st.handleStates.length := by
    by_contra hge
    have hnone : st.handleStates[h]? = none := List.getElem?_eq_none (le_of_not_lt hge)
    rw [wsReadyState, hnone] at hcon
    exact absurd hcon (by decide)
  have hws1 : (stopHeartbeat { st with isManualClose := true }).ws = some h := by
    simpa using hws
  have hstep1 : step st Ev.callClose
      = requestClose (stopHeartbeat { st with isManualClose := true }) h := by
    simp only [step, close, hws1]
  have hrsq : wsReadyState (stopHeartbeat { st with isManualClose := true }) h
      = WS.CONNECTING := by
    unfold wsReadyState at hcon ⊢
    simpa using hcon
  have hstep2 : step st Ev.callClose
      = setHandleState (stopHeartbeat { st with isManualClose := true }) h WS.CLOSING := by
    rw [hstep1]
    unfold requestClose
    rw [if_pos (Or.inl hrsq)]
  have hwss : (step st Ev.callClose).ws = some h := by
    rw [hstep2]
    simpa using hws
  have hrs : wsReadyState (step st Ev.callClose) h = WS.CLOSING := by
    rw [hstep2]
    apply wsReadyState_set_self
    simpa using hlt
  generalize hg : step st Ev.callClose = st1 at hfind hwss hrs ⊢
  simp only [step, fireTimer, hfind]
  unfold connectTimeoutFire
  have hwc : (clearTimer st1 t).ws = some h := hwss
  simp only [hwc]
  have hne : ¬ wsReadyState (clearTimer st1 t) h = WS.CONNECTING := by
    have heq : wsReadyState (clearTimer st1 t) h = wsReadyState st1 h := rfl
    rw [heq, hrs]
    decide
  rw [if_neg hne]

/-- Witness for C9: a fresh connect, a caller close, then the original
connect-timeout firing — the firing only removes the timer. -/
theorem C9_close_pending_connect_disarms_timeout_witness :
    step (step (run emptyOptions [Ev.callConnect]) Ev.callClose) (Ev.fire 0)
      = clearTimer (step (run emptyOptions [Ev.callConnect]) Ev.callClose) 0 :=
  C9_close_pending_connect_disarms_timeout (run emptyOptions [Ev.callConnect]) 0 0 0
    rfl rfl rfl

/-- Counterexample to C2: with the default configuration, an unexpected close
schedules a reconnect (timer 1); the caller then calls `close()` — the manual
close flag is set and exactly one transport handle exists — yet when the
scheduled reconnect-interval timer fires, `connect()` runs and a SECOND
transport handle is created, even though the caller never called `connect()`
again after the manual close. -/
theorem C2_counterexample_reconnect_survives_close :
    (run emptyOptions [Ev.callConnect, Ev.wsClose 0, Ev.callClose]).isManualClose = true ∧
    (run emptyOptions [Ev.callConnect, Ev.wsClose 0, Ev.callClose]).handleStates.length = 1 ∧
    (run emptyOptions
        [Ev.callConnect, Ev.wsClose 0, Ev.callClose, Ev.fire 1]).handleStates.length = 2 :=
  ⟨rfl, rfl, rfl⟩

/-- C2 amended: calling `close()` before a scheduled reconnect fires does NOT
suppress it — `close()` never cancels the reconnect-interval timer, and the
timer's body calls `connect()` unconditionally. When the timer fires after the
manual close, `connect()` runs, exactly one new transport handle is created,
and the manual-close flag is reset to false. (The `isManualClose` flag only
prevents the close handler from scheduling further reconnects.) -/
theorem C2_amended_close_does_not_suppress_scheduled_reconnect (st : Sys) (t : Nat)
    (hfind : (step st Ev.callClose).pendingTimers.find? (fun e => e.id == t)
      = some (TimerEntry.mk t TimerKind.reconnectDelay)) :
    step (step st Ev.callClose) (Ev.fire t)
      = connect (clearTimer (step st Ev.callClose) t) ∧
    (step (step st Ev.callClose) (Ev.fire t)).handleStates.length
      = (step st Ev.callClose).handleStates.length + 1 ∧
    (step st Ev.callClose).isManualClose = true ∧
    (step (step st Ev.callClose) (Ev.fire t)).isManualClose = false := by
  have hfire : step (step st Ev.callClose) (Ev.fire t)
      = connect (clearTimer (step st Ev.callClose) t) := by
    generalize step st Ev.callClose = st1 at hfind ⊢
    simp only [step, fireTimer, hfind]
  refine ⟨hfire, ?_, ?_, ?_⟩
  · rw [hfire]
    simp [connect]
  · simp [step]
  · rw [hfire]
    rfl

/-- Witness for C2's amended statement on the counterexample trace. -/
theorem C2_amended_close_does_not_suppress_scheduled_reconnect_witness :
    step (step (run emptyOptions [Ev.callConnect, Ev.wsClose 0]) Ev.callClose) (Ev.fire 1)
      = connect (clearTimer
          (step (run emptyOptions [Ev.callConnect, Ev.wsClose 0]) Ev.callClose) 1) ∧
    (step (step (run emptyOptions [Ev.callConnect, Ev.wsClose 0]) Ev.callClose)
        (Ev.fire 1)).handleStates.length
      = (step (run emptyOptions [Ev.callConnect, Ev.wsClose 0])
          Ev.callClose).handleStates.length + 1 ∧
    (step (run emptyOptions [Ev.callConnect, Ev.wsClose 0]) Ev.callClose).isManualClose
      = true ∧
    (step (step (run emptyOptions [Ev.callConnect, Ev.wsClose 0]) Ev.callClose)
        (Ev.fire 1)).isManualClose = false :=
  C2_amended_close_does_not_suppress_scheduled_reconnect
    (run emptyOptions [Ev.callConnect, Ev.wsClose 0]) 1 rfl

/-- A listener callback (`SaoKitEventListener`): it receives the event data
and either returns or throws an exception carried as a `String`. -/
def Callback : Type := Nat → Except String Unit

/-- `Array.prototype.forEach` with a possibly-throwing callback, as used by
`emit` (index.ts 242): callbacks run in order and an exception propagates
immediately, so iteration stops at the first throwing callback. -/
def forEachCall (cbs : List Callback) (d : Nat) : Except String Unit :=
  match cbs with
  | [] => Except.ok ()
  | cb :: rest =>
    match cb d with
    | Except.ok _ => forEachCall rest d
    | Except.error e => Except.error e

/-- How many callbacks of the sequence actually get invoked by `forEachCall`:
all of them when none throws, otherwise everything up to and including the
first throwing one. -/
def invokedCount (cbs : List Callback) (d : Nat) : Nat :=
  match cbs with
  | [] => 0
  | cb :: rest =>
    match cb d with
    | Except.ok _ => invokedCount rest d + 1
    | Except.error _ => 1

/-- The listener registry of a manager: the `Map` from event kind to the
ordered callback sequence (every kind is initialized at construction, so the
mapping is total). -/
structure ListenerRegistry where
  listeners : EventType → List Callback

/-- `emit(event, data)` (index.ts 236–244): look up the callback sequence and
run it with `forEach`; the method itself writes no manager state (the second
component is the registry it ran against, returned unchanged). -/
def emit (reg : ListenerRegistry) (e : EventType) (d : Nat) :
    Except String Unit × ListenerRegistry :=
  (forEachCall (reg.listeners e) d, reg)

/-- A callback that throws. -/
def cbThrow : Callback := fun _ => Except.error "listener boom"

/-- A callback that returns normally. -/
def cbOk : Callback := fun _ => Except.ok ()

/-- Counterexample to C1: with the two-callback sequence [cbThrow, cbOk], the
first callback throws and dispatch stops — only 1 of the 2 registered
callbacks is invoked, and the exception escapes `emit` — so a throwing
callback DOES prevent subsequent callbacks in the same dispatch from running
(`emit` has no per-callback try/catch). -/
theorem C1_counterexample_throw_aborts_dispatch :
    invokedCount [cbThrow, cbOk] 0 = 1 ∧
    ([cbThrow, cbOk] : List Callback).length = 2 ∧
    forEachCall [cbThrow, cbOk] 0 = Except.error "listener boom" :=
  ⟨rfl, rfl, rfl⟩

/-- C1 amended: when a callback throws during `emit`, the callbacks registered
before it have run, the throwing one ran, the callbacks after it are NOT
invoked for that dispatch, the exception propagates out of `emit` to its
caller, and the dispatch itself writes no manager state (the registry — and
every other manager field, since `emit` only reads `this.listeners` — is
unchanged). -/
theorem C1_amended_throw_aborts_rest_state_unchanged (reg : ListenerRegistry)
    (k : EventType) (pre post : List Callback) (cb : Callback) (d : Nat) (e : String)
    (hlist : reg.listeners k = pre ++ cb :: post)
    (hthrow : cb d = Except.error e)
    (hpre : ∀ c ∈ pre, c d = Except.ok ()) :
    (emit reg k d).1 = Except.error e ∧
    invokedCount (reg.listeners k) d = pre.length + 1 ∧
    (emit reg k d).2 = reg := by
  refine ⟨?_, ?_, rfl⟩
  · show forEachCall (reg.listeners k) d = Except.error e
    rw [hlist]
    clear hlist
    induction pre with
    | nil => simp [forEachCall, hthrow]
    | cons c rest ih =>
      have hc : c d = Except.ok () := hpre c (by simp)
      simp only [List.cons_append, forEachCall, hc]
      exact ih (fun c hc => hpre c (by simp [hc]))
  · rw [hlist]
    clear hlist
    induction pre with
    | nil => simp [invokedCount, hthrow]
    | cons c rest ih =>
      have hc : c d = Except.ok () := hpre c (by simp)
      simp only [List.cons_append, invokedCount, hc, List.append_eq]
      rw [ih (fun c hc => hpre c (by simp [hc]))]
      simp [List.length_cons]

/-- Witness for C1's amended statement: registry with [cbOk, cbThrow, cbOk]
on the `message` kind — the first two callbacks run, the third does not, and
the registry is unchanged. -/
theorem C1_amended_throw_aborts_rest_state_unchanged_witness :
    (emit (ListenerRegistry.mk fun _ => [cbOk, cbThrow, cbOk]) EventType.message 0).1
      = Except.error "listener boom" ∧
    invokedCount
      ((ListenerRegistry.mk fun _ => [cbOk, cbThrow, cbOk]).listeners EventType.message) 0
      = 2 ∧
    (emit (ListenerRegistry.mk fun _ => [cbOk, cbThrow, cbOk]) EventType.message 0).2
      = ListenerRegistry.mk fun _ => [cbOk, cbThrow, cbOk] :=
  C1_amended_throw_aborts_rest_state_unchanged
    (ListenerRegistry.mk fun _ => [cbOk, cbThrow, cbOk]) EventType.message
    [cbOk] [cbOk] cbThrow 0 "listener boom" rfl rfl
    (by intro c hc; simp at hc; rw [hc]; rfl)
